import Mathlib

set_option allowUnsafeReducibility true

attribute [semireducible] Rat.ofScientific Rat.add Rat.mul Rat.div Rat.inv Rat.sub Rat.neg

/-!
Verification of the Figma-to-code generation engine
(`src/utils/code-generator.ts`, classes `CodeGenerator` and
`AdvancedCodeGenerator`) against its natural-language specification.

The TypeScript source is shallowly embedded: JavaScript strings become
`String`, JavaScript numbers become `ℚ` (all arithmetic in the generator is
exact on the values it manipulates), optional fields become `Option`,
thrown exceptions become `Except String`.  JavaScript truthiness tests on
optional numeric / string fields are modelled explicitly (`0`, `""` and
`undefined` are falsy).  `toUpperCase` / `toLowerCase` are modelled on the
ASCII range, which is the only range the generator ever applies them to
after its `[^a-zA-Z0-9]` strip (for `generateClassName` the ASCII model is
an abstraction of the JavaScript Unicode case map).
-/

/-! ## ASCII character helpers (models of the JS regexes and case maps) -/

def lowerChars : List Char :=
  ['a','b','c','d','e','f','g','h','i','j','k','l','m',
   'n','o','p','q','r','s','t','u','v','w','x','y','z']

def upperChars : List Char :=
  ['A','B','C','D','E','F','G','H','I','J','K','L','M',
   'N','O','P','Q','R','S','T','U','V','W','X','Y','Z']

def digitChars : List Char :=
  ['0','1','2','3','4','5','6','7','8','9']

/-- Character class of the regex `[a-zA-Z0-9]`. -/
def isAsciiAlnum (c : Char) : Bool :=
  lowerChars.contains c || upperChars.contains c || digitChars.contains c

/-- Character class of the regex `[0-9]`. -/
def isAsciiDigit (c : Char) : Bool :=
  digitChars.contains c

/-- Character class of the regex `[a-z0-9-]`. -/
def isLowerAlnumDash (c : Char) : Bool :=
  lowerChars.contains c || digitChars.contains c || c = '-'

/-- ASCII whitespace, model of the regex class `\s`. -/
def isJsWs (c : Char) : Bool :=
  c = ' ' || c = '\t' || c = '\n' || c = '\r' || c = '\x0b' || c = '\x0c'

/-- `String.prototype.toUpperCase` on one character, ASCII model. -/
def upChar (c : Char) : Char :=
  match (lowerChars.zip upperChars).find? (fun p => p.1 == c) with
  | some p => p.2
  | none => c

/-- `String.prototype.toLowerCase` on one character, ASCII model. -/
def lowChar (c : Char) : Char :=
  match (upperChars.zip lowerChars).find? (fun p => p.1 == c) with
  | some p => p.2
  | none => c

def jsToLower (s : String) : String :=
  (s.toList.map lowChar).asString

/-- Substring test, model of `String.prototype.includes`. -/
def leadsWith : List Char → List Char → Bool
  | _, [] => true
  | [], _ :: _ => false
  | a :: as, b :: bs => a == b && leadsWith as bs

def hasSub (l sub : List Char) : Bool :=
  leadsWith l sub ||
    match l with
    | [] => false
    | _ :: rest => hasSub rest sub

def jsIncludes (s sub : String) : Bool :=
  hasSub s.toList sub.toList

/-- JavaScript truthiness of an optional number (`undefined` and `0` falsy). -/
def truthyQ (o : Option ℚ) : Bool :=
  o.getD 0 ≠ 0

/-- JavaScript truthiness of an optional string (`undefined` and `""` falsy). -/
def truthyS (o : Option String) : Bool :=
  o.getD "" ≠ ""

/-- `Math.round` on an exact rational: round half away from zero upward,
which on the generator's nonnegative inputs agrees with JS semantics. -/
def jsRound (q : ℚ) : ℤ :=
  ⌊q + 1/2⌋

/-- JS number stringification, exact on integers (the only values any
claim evaluates); non-integral rationals are shown as fractions. -/
def jsNumToString (q : ℚ) : String :=
  if q.den = 1 then toString q.num else toString q

/-! ## The name sanitizer (`sanitizeComponentName`) -/

def componentWord : List Char :=
  ['C','o','m','p','o','n','e','n','t']

/-- Stage 2 of the sanitizer: `.replace(/^[0-9]/, 'Component$&')`. -/
def digitGuard : List Char → List Char
  | [] => []
  | c :: rest => if isAsciiDigit c then componentWord ++ c :: rest else c :: rest

/-- Stage 3 and 4 of the sanitizer:
`.replace(/^., str => str.toUpperCase()) || 'Component'`.  The result of
stage 3 is empty exactly when its input is, so the `|| 'Component'`
default collapses into the empty case. -/
def upFirstOrDefault : List Char → List Char
  | [] => componentWord
  | c :: rest => upChar c :: rest

/-- Embedding of
`name.replace(/[^a-zA-Z0-9]/g, '').replace(/^[0-9]/, 'Component$&')
     .replace(/^., str => str.toUpperCase()) || 'Component'`
at the character-list level. -/
def sanitizeChars (l : List Char) : List Char :=
  upFirstOrDefault (digitGuard (l.filter isAsciiAlnum))

namespace AdvancedCodeGenerator

/-- `AdvancedCodeGenerator.sanitizeComponentName` (code-generator.ts:567). -/
def sanitizeComponentName (name : String) : String :=
  (sanitizeChars name.toList).asString

end AdvancedCodeGenerator

/-! ### Character-level facts, proved by evaluation over the finite tables -/

theorem upChar_facts : ∀ c ∈ lowerChars ++ upperChars ++ digitChars,
    isAsciiAlnum (upChar c) = true ∧
    upChar (upChar c) = upChar c ∧
    (isAsciiDigit c = false → isAsciiDigit (upChar c) = false) := by
  decide

theorem mem_tables_of_alnum (c : Char) (h : isAsciiAlnum c = true) :
    c ∈ lowerChars ++ upperChars ++ digitChars := by
  simp only [isAsciiAlnum, Bool.or_eq_true, List.contains, List.elem_iff] at h
  simp only [List.mem_append]
  tauto

theorem componentWord_alnum : ∀ c ∈ componentWord, isAsciiAlnum c = true := by
  decide

theorem componentWord_fixed : sanitizeChars componentWord = componentWord := by
  decide

/-- The output of `sanitizeChars` is nonempty, consists of alphanumeric
characters, and its head is neither a digit nor changed by upper-casing. -/
theorem sanitizeChars_shape (l : List Char) :
    ∃ h t, sanitizeChars l = h :: t ∧
      (∀ c ∈ h :: t, isAsciiAlnum c = true) ∧
      isAsciiDigit h = false ∧ upChar h = h := by
  unfold sanitizeChars
  cases hs : l.filter isAsciiAlnum with
  | nil =>
    exact ⟨'C', componentWord.tail, by decide, by decide, by decide, by decide⟩
  | cons c rest =>
    have hmemall : ∀ x ∈ c :: rest, isAsciiAlnum x = true := by
      intro x hx
      exact List.of_mem_filter (hs ▸ hx)
    have hc : isAsciiAlnum c = true := hmemall c (List.mem_cons_self c rest)
    by_cases hd : isAsciiDigit c = true
    · have hled : digitGuard (c :: rest) = 'C' :: (componentWord.tail ++ c :: rest) := by
        simp [digitGuard, hd, componentWord]
      rw [hled]
      refine ⟨upChar 'C', componentWord.tail ++ c :: rest, rfl, ?_, by decide, by decide⟩
      intro x hx
      rcases List.mem_cons.mp hx with h1 | h2
      · rw [h1]; decide
      · have : x ∈ componentWord ++ c :: rest := by
          rcases List.mem_append.mp h2 with h3 | h4
          · exact List.mem_append.mpr (Or.inl (List.mem_of_mem_tail h3))
          · exact List.mem_append.mpr (Or.inr h4)
        rcases List.mem_append.mp this with h1 | h2
        · exact componentWord_alnum x h1
        · exact hmemall x h2
    · have hd' : isAsciiDigit c = false := by
        simpa using hd
      have hled : digitGuard (c :: rest) = c :: rest := by
        simp [digitGuard, hd']
      rw [hled]
      have hfacts := upChar_facts c (mem_tables_of_alnum c hc)
      refine ⟨upChar c, rest, rfl, ?_, hfacts.2.2 hd', hfacts.2.1⟩
      intro x hx
      rcases List.mem_cons.mp hx with h1 | h2
      · exact h1 ▸ hfacts.1
      · exact hmemall x (List.mem_cons_of_mem c h2)

/-- A list that already has the shape of a sanitizer output is a fixed point. -/
theorem sanitizeChars_fixed (h : Char) (t : List Char)
    (hall : ∀ c ∈ h :: t, isAsciiAlnum c = true)
    (hd : isAsciiDigit h = false) (hu : upChar h = h) :
    sanitizeChars (h :: t) = h :: t := by
  unfold sanitizeChars
  have hfilter : (h :: t).filter isAsciiAlnum = h :: t :=
    List.filter_eq_self.mpr hall
  rw [hfilter]
  simp [digitGuard, upFirstOrDefault, hd, hu]

theorem sanitizeChars_idem (l : List Char) :
    sanitizeChars (sanitizeChars l) = sanitizeChars l := by
  obtain ⟨h, t, heq, hall, hd, hu⟩ := sanitizeChars_shape l
  rw [heq, sanitizeChars_fixed h t hall hd hu]

/-- C3: the name sanitizer is idempotent. -/
theorem claim_C3_sanitize_idempotent (s : String) :
    AdvancedCodeGenerator.sanitizeComponentName
      (AdvancedCodeGenerator.sanitizeComponentName s) =
    AdvancedCodeGenerator.sanitizeComponentName s := by
  unfold AdvancedCodeGenerator.sanitizeComponentName
  have hround : ((sanitizeChars s.toList).asString).toList = sanitizeChars s.toList := rfl
  rw [hround, sanitizeChars_idem]

/-! ### C4: the sanitizer agrees with the spec-worded contract -/

/-- The sanitizer contract exactly as the spec words it: remove every
character outside `[A-Za-z0-9]`; prefix the literal word "Component" when
the remainder starts with a digit; upper-case the first character; when
the stripped remainder is empty return exactly "Component". -/
def sanitizeNameSpec (name : String) : String :=
  let stripped := name.toList.filter isAsciiAlnum
  match stripped with
  | [] => "Component"
  | c :: rest =>
    let led := if isAsciiDigit c then componentWord ++ c :: rest else c :: rest
    (match led with
     | [] => []
     | d :: ds => upChar d :: ds).asString

/-- C4: for every input string, `sanitizeComponentName` returns exactly the
string described by the spec contract (strip, digit-guard with the literal
word "Component", upper-case first character, default "Component"). -/
theorem claim_C4_sanitize_contract (s : String) :
    AdvancedCodeGenerator.sanitizeComponentName s = sanitizeNameSpec s := by
  unfold AdvancedCodeGenerator.sanitizeComponentName sanitizeNameSpec sanitizeChars
  cases hs : s.toList.filter isAsciiAlnum with
  | nil => rfl
  | cons c rest =>
    by_cases hd : isAsciiDigit c = true
    · simp only [hd, if_true, digitGuard]
      cases hw : componentWord ++ c :: rest with
      | nil => simp [componentWord] at hw
      | cons d ds => simp [upFirstOrDefault]
    · have hd' : isAsciiDigit c = false := by simpa using hd
      simp [hd', digitGuard, upFirstOrDefault]

/-! ## The design-document data model (`@/types/figma`, as used by the
generator).  A node's own attributes are collected in `NodeData`; the tree
structure is the inductive `FigmaNode`.  Optional children / fills /
effects are modelled as plain lists because the generator treats an absent
list and an empty list identically everywhere. -/

structure Color where
  r : ℚ
  g : ℚ
  b : ℚ
  a : ℚ
deriving Repr, DecidableEq

structure Paint where
  type : String
deriving Repr, DecidableEq

structure TextStyle where
  fontSize : Option ℚ
deriving Repr, DecidableEq

structure BBox where
  x : ℚ
  y : ℚ
  width : ℚ
  height : ℚ
deriving Repr, DecidableEq

structure Constraints where
  horizontal : String
  vertical : String
deriving Repr, DecidableEq

structure Effect where
  type : String
deriving Repr, DecidableEq

structure NodeData where
  id : String
  name : String
  type : String
  characters : Option String
  fills : List Paint
  style : Option TextStyle
  layoutMode : Option String
  itemSpacing : Option ℚ
  paddingLeft : Option ℚ
  paddingRight : Option ℚ
  paddingTop : Option ℚ
  paddingBottom : Option ℚ
  cornerRadius : Option ℚ
  backgroundColor : Option Color
  absoluteBoundingBox : Option BBox
  constraints : Option Constraints
  effects : List Effect
deriving Repr, DecidableEq

inductive FigmaNode where
  | mk (data : NodeData) (children : List FigmaNode)
deriving Repr

def FigmaNode.data : FigmaNode → NodeData
  | .mk d _ => d

def FigmaNode.children : FigmaNode → List FigmaNode
  | .mk _ c => c

def FigmaNode.id (n : FigmaNode) : String := n.data.id

def FigmaNode.name (n : FigmaNode) : String := n.data.name

def FigmaNode.type (n : FigmaNode) : String := n.data.type

def FigmaNode.characters (n : FigmaNode) : Option String := n.data.characters

def FigmaNode.fills (n : FigmaNode) : List Paint := n.data.fills

def FigmaNode.style (n : FigmaNode) : Option TextStyle := n.data.style

def FigmaNode.layoutMode (n : FigmaNode) : Option String := n.data.layoutMode

def FigmaNode.itemSpacing (n : FigmaNode) : Option ℚ := n.data.itemSpacing

def FigmaNode.paddingLeft (n : FigmaNode) : Option ℚ := n.data.paddingLeft

def FigmaNode.paddingRight (n : FigmaNode) : Option ℚ := n.data.paddingRight

def FigmaNode.paddingTop (n : FigmaNode) : Option ℚ := n.data.paddingTop

def FigmaNode.paddingBottom (n : FigmaNode) : Option ℚ := n.data.paddingBottom

def FigmaNode.cornerRadius (n : FigmaNode) : Option ℚ := n.data.cornerRadius

def FigmaNode.backgroundColor (n : FigmaNode) : Option Color := n.data.backgroundColor

def FigmaNode.absoluteBoundingBox (n : FigmaNode) : Option BBox := n.data.absoluteBoundingBox

def FigmaNode.constraints (n : FigmaNode) : Option Constraints := n.data.constraints

def FigmaNode.effects (n : FigmaNode) : List Effect := n.data.effects

/-! ## Report types of the generator output -/

structure AccessibilityIssue where
  type : String
  message : String
  element : String
  fix : String
deriving Repr, DecidableEq

structure AccessibilityReport where
  score : ℤ
  issues : List AccessibilityIssue
  suggestions : List String
  wcagCompliance : String
deriving Repr, DecidableEq

structure ResponsiveBreakpoints where
  mobile : String
  tablet : String
  desktop : String
  hasResponsiveDesign : Bool
deriving Repr, DecidableEq

structure ComponentMetadata where
  figmaNodeId : String
  componentType : String
  complexity : String
  estimatedAccuracy : ℤ
  generationTime : ℕ
  dependencies : List String
deriving Repr, DecidableEq

structure GeneratedComponent where
  id : String
  name : String
  jsx : String
  css : String
  typescript : Option String
  accessibility : AccessibilityReport
  responsive : ResponsiveBreakpoints
  metadata : ComponentMetadata
deriving Repr, DecidableEq

/-! ## `AdvancedCodeGenerator`: analyzers (code-generator.ts:732-893) -/

namespace AdvancedCodeGenerator

/-- `isImage` (code-generator.ts:822): `node.fills?.some(f => f.type === 'IMAGE') || false`. -/
def isImage (node : FigmaNode) : Bool :=
  node.fills.any (fun f => f.type == "IMAGE")

/-- `hasLinks` (code-generator.ts:826). -/
def hasLinks (node : FigmaNode) : Bool :=
  jsIncludes (jsToLower node.name) "link" || jsIncludes (jsToLower node.name) "button"

/-- `isInteractiveElement` (code-generator.ts:831). -/
def isInteractiveElement (node : FigmaNode) : Bool :=
  let name := jsToLower node.name
  jsIncludes name "button" || jsIncludes name "link" ||
    jsIncludes name "input" || jsIncludes name "click"

/-- `isHeading` (code-generator.ts:839). -/
def isHeading (node : FigmaNode) : Bool :=
  if node.type ≠ "TEXT" then false
  else
    let name := jsToLower node.name
    jsIncludes name "title" || jsIncludes name "heading" || jsIncludes name "header" ||
      ((node.style.bind TextStyle.fontSize).getD 0 > 20)

/-- `calculateContrastRatio` (code-generator.ts:848): the documented
placeholder, always `4.5`. -/
def calculateContrastRatio (_node : FigmaNode) : ℚ :=
  4.5

/-- `generateResponsiveCSS` (code-generator.ts:892). -/
def generateResponsiveCSS (_node : FigmaNode) (breakpoint : String) : String :=
  "/* " ++ breakpoint ++ " responsive styles */"

/-- `analyzeAccessibility` (code-generator.ts:732-775).  The sequential
mutation of `issues` / `suggestions` / `score` is threaded explicitly, in
the order the source performs the three checks. -/
def analyzeAccessibility (node : FigmaNode) : AccessibilityReport :=
  let step1 : List AccessibilityIssue × ℤ :=
    if isImage node then
      ([⟨"error", "Image missing alt text", node.name,
         "Add alt attribute with descriptive text"⟩], 100 - 15)
    else ([], 100)
  let step2 : List AccessibilityIssue × ℤ :=
    if node.type == "TEXT" then
      if calculateContrastRatio node < 4.5 then
        (step1.1 ++ [⟨"warning", "Low text contrast", node.name,
           "Increase contrast between text and background"⟩], step1.2 - 10)
      else step1
    else step1
  let suggestions : List String :=
    if isInteractiveElement node then
      ["Ensure keyboard navigation support",
       "Add ARIA labels for screen readers",
       "Use proper focus states"]
    else []
  { score := max 0 step2.2
    issues := step2.1
    suggestions := suggestions
    wcagCompliance :=
      if step2.2 ≥ 80 then "AA" else if step2.2 ≥ 60 then "A" else "Non-compliant" }

/-- `analyzeResponsive` (code-generator.ts:777-788).  Note
`node.constraints?.horizontal !== 'LEFT'` is `true` in JavaScript when
`constraints` is absent, because `undefined !== 'LEFT'`. -/
def analyzeResponsive (node : FigmaNode) : ResponsiveBreakpoints :=
  let hasFlexLayout : Bool :=
    node.layoutMode == some "HORIZONTAL" || node.layoutMode == some "VERTICAL"
  let hasConstraints : Bool :=
    !(node.constraints.map Constraints.horizontal == some "LEFT") ||
      !(node.constraints.map Constraints.vertical == some "TOP")
  { mobile := generateResponsiveCSS node "mobile"
    tablet := generateResponsiveCSS node "tablet"
    desktop := generateResponsiveCSS node "desktop"
    hasResponsiveDesign := hasFlexLayout || hasConstraints }

end AdvancedCodeGenerator

/-! ### Example nodes used by concrete counterexamples and witnesses -/

/-- A node record with every optional attribute absent. -/
def plainNodeData (id name ty : String) : NodeData :=
  { id := id, name := name, type := ty, characters := none, fills := [],
    style := none, layoutMode := none, itemSpacing := none,
    paddingLeft := none, paddingRight := none, paddingTop := none,
    paddingBottom := none, cornerRadius := none, backgroundColor := none,
    absoluteBoundingBox := none, constraints := none, effects := [] }

/-- A bare rectangle: no flow layout and no constraints record at all. -/
def plainBox : FigmaNode := .mk (plainNodeData "0:1" "Box" "RECTANGLE") []

/-- A text node whose name matches no interactive keyword. -/
def exText : FigmaNode :=
  .mk { plainNodeData "1:1" "t" "TEXT" with characters := some "hello" } []

/-! ### C5: the responsiveness flag -/

/-- The C5 claim's reading of `hasResponsiveDesign`: flow layout or a
deviation from top-left constraints, with unspecified constraints counting
as the default (hence not a deviation). -/
def hasResponsiveClaimC5 (node : FigmaNode) : Bool :=
  (node.layoutMode == some "HORIZONTAL" || node.layoutMode == some "VERTICAL") ||
    (match node.constraints with
     | none => false
     | some c => !(c.horizontal == "LEFT") || !(c.vertical == "TOP"))

/-- The amended reading: a node with an absent constraints record also
counts as responsive, because `undefined !== 'LEFT'` holds in JavaScript. -/
def hasResponsiveAmendedC5 (node : FigmaNode) : Bool :=
  (node.layoutMode == some "HORIZONTAL" || node.layoutMode == some "VERTICAL") ||
    (match node.constraints with
     | none => true
     | some c => !(c.horizontal == "LEFT") || !(c.vertical == "TOP"))

/-- C5 counterexample: a node with no flow layout and unspecified
constraints gets `hasResponsiveDesign = true` from the code, while the
claim demands `false` for exactly this input. -/
theorem claim_C5_counterexample :
    plainBox.layoutMode = none ∧ plainBox.constraints = none ∧
    hasResponsiveClaimC5 plainBox = false ∧
    (AdvancedCodeGenerator.analyzeResponsive plainBox).hasResponsiveDesign = true := by
  decide

/-- C5 (amended): `hasResponsiveDesign` is true iff the node uses a flow
layout mode, or its constraints record is absent, or a present constraints
record deviates from LEFT/TOP on at least one axis.  In particular a node
with explicitly top-left constraints and no flow layout yields `false`. -/
theorem claim_C5_responsive_flag (node : FigmaNode) :
    (AdvancedCodeGenerator.analyzeResponsive node).hasResponsiveDesign =
      hasResponsiveAmendedC5 node := by
  unfold AdvancedCodeGenerator.analyzeResponsive hasResponsiveAmendedC5
  cases h : node.constraints with
  | none => simp
  | some c => simp

/-! ### C6: the text-contrast check -/

/-- C6 counterexample: for a text node the placeholder contrast estimate
is exactly `4.5`, not below it, yet the report's suggestion list is empty:
the advanced analyzer never appends the claimed neutral
verify-contrast suggestion. -/
theorem claim_C6_counterexample :
    exText.type = "TEXT" ∧
    ¬ (AdvancedCodeGenerator.calculateContrastRatio exText < 4.5) ∧
    (AdvancedCodeGenerator.analyzeAccessibility exText).suggestions = [] := by
  decide

/-- C6 (amended): for every text node the contrast estimate is the
constant `4.5`, so the below-threshold branch (warning issue, `-10`
penalty) never fires, and — contrary to the claim's else-branch — nothing
is appended to the suggestions: issues, score and suggestions are fully
determined by the image and interactive-element checks. -/
theorem claim_C6_text_contrast (node : FigmaNode) (_h : node.type = "TEXT") :
    ¬ (AdvancedCodeGenerator.calculateContrastRatio node < 4.5) ∧
    (AdvancedCodeGenerator.analyzeAccessibility node).issues =
      (if AdvancedCodeGenerator.isImage node then
        [⟨"error", "Image missing alt text", node.name,
          "Add alt attribute with descriptive text"⟩]
       else []) ∧
    (AdvancedCodeGenerator.analyzeAccessibility node).score =
      (if AdvancedCodeGenerator.isImage node then 85 else 100) ∧
    (AdvancedCodeGenerator.analyzeAccessibility node).suggestions =
      (if AdvancedCodeGenerator.isInteractiveElement node then
        ["Ensure keyboard navigation support",
         "Add ARIA labels for screen readers",
         "Use proper focus states"]
       else []) := by
  unfold AdvancedCodeGenerator.analyzeAccessibility
  refine ⟨by norm_num [AdvancedCodeGenerator.calculateContrastRatio], ?_, ?_, ?_⟩ <;>
    by_cases hi : AdvancedCodeGenerator.isImage node <;>
      simp [hi, AdvancedCodeGenerator.calculateContrastRatio]

theorem claim_C6_text_contrast_witness :
    ¬ (AdvancedCodeGenerator.calculateContrastRatio exText < 4.5) ∧
    (AdvancedCodeGenerator.analyzeAccessibility exText).suggestions = [] := by
  have h := claim_C6_text_contrast exText (by decide)
  exact ⟨h.1, h.2.2.2.trans (by decide)⟩

/-! ### C9: accessibility analysis never inspects the children -/

/-- C9: the accessibility report depends only on the node's own record —
two nodes with the same own attributes and arbitrarily different children
subtrees receive identical reports. -/
theorem claim_C9_accessibility_ignores_children (d : NodeData)
    (c1 c2 : List FigmaNode) :
    AdvancedCodeGenerator.analyzeAccessibility (.mk d c1) =
    AdvancedCodeGenerator.analyzeAccessibility (.mk d c2) := rfl

/-! ## `AdvancedCodeGenerator`: style and utility-class emission
(code-generator.ts:624-696, 853-886) -/

namespace AdvancedCodeGenerator

/-- `colorToTailwind` (code-generator.ts:859). -/
def colorToTailwind (color : Color) : String :=
  if color.r > 0.9 ∧ color.g > 0.9 ∧ color.b > 0.9 then "bg-white"
  else if color.r < 0.1 ∧ color.g < 0.1 ∧ color.b < 0.1 then "bg-black"
  else if color.r > 0.8 ∧ color.g < 0.3 ∧ color.b < 0.3 then "bg-red-500"
  else if color.r < 0.3 ∧ color.g > 0.8 ∧ color.b < 0.3 then "bg-green-500"
  else if color.r < 0.3 ∧ color.g < 0.3 ∧ color.b > 0.8 then "bg-blue-500"
  else "bg-gray-500"

/-- `colorToCSS` (code-generator.ts:853).  The source's optional `opacity`
parameter is passed explicitly (`none` at every call site). -/
def colorToCSS (color : Color) (opacity : Option ℚ) : String :=
  let alpha := opacity.getD color.a
  "rgba(" ++ toString (jsRound (color.r * 255)) ++ ", " ++
    toString (jsRound (color.g * 255)) ++ ", " ++
    toString (jsRound (color.b * 255)) ++ ", " ++ jsNumToString alpha ++ ")"

/-- `pxToTailwindSpacing` (code-generator.ts:871). -/
def pxToTailwindSpacing (px : ℚ) : String :=
  let spacing := jsRound (px / 4)
  if spacing ≤ 0 then "0"
  else if spacing ≤ 96 then toString spacing
  else "[" ++ jsNumToString px ++ "px]"

/-- `borderRadiusToTailwind` (code-generator.ts:878). -/
def borderRadiusToTailwind (radius : ℚ) : String :=
  if radius ≤ 2 then "rounded-sm"
  else if radius ≤ 4 then "rounded"
  else if radius ≤ 6 then "rounded-md"
  else if radius ≤ 8 then "rounded-lg"
  else if radius ≤ 12 then "rounded-xl"
  else if radius ≤ 16 then "rounded-2xl"
  else "rounded-[" ++ jsNumToString radius ++ "px]"

/-- `generateTailwindClasses` (code-generator.ts:624-663).  Each
`if (node.x)` guard is JS truthiness: absent and `0` both skip. -/
def generateTailwindClasses (node : FigmaNode) : String :=
  let classes : List String :=
    (if node.layoutMode == some "HORIZONTAL" then ["flex", "flex-row"]
     else if node.layoutMode == some "VERTICAL" then ["flex", "flex-col"]
     else []) ++
    (if truthyQ node.itemSpacing then
      ["gap-" ++ pxToTailwindSpacing (node.itemSpacing.getD 0)] else []) ++
    (if truthyQ node.paddingLeft then
      ["pl-" ++ pxToTailwindSpacing (node.paddingLeft.getD 0)] else []) ++
    (if truthyQ node.paddingRight then
      ["pr-" ++ pxToTailwindSpacing (node.paddingRight.getD 0)] else []) ++
    (if truthyQ node.paddingTop then
      ["pt-" ++ pxToTailwindSpacing (node.paddingTop.getD 0)] else []) ++
    (if truthyQ node.paddingBottom then
      ["pb-" ++ pxToTailwindSpacing (node.paddingBottom.getD 0)] else []) ++
    (match node.absoluteBoundingBox with
     | some bb => ["w-[" ++ jsNumToString bb.width ++ "px]",
                   "h-[" ++ jsNumToString bb.height ++ "px]"]
     | none => []) ++
    (match node.backgroundColor with
     | some c => [colorToTailwind c]
     | none => []) ++
    (if truthyQ node.cornerRadius then
      [borderRadiusToTailwind (node.cornerRadius.getD 0)] else [])
  String.intercalate " " classes

/-- `extractAllStyles` (code-generator.ts:665-696): the normalized style
record, as an insertion-ordered property list. -/
def extractAllStyles (node : FigmaNode) : List (String × String) :=
  (match node.absoluteBoundingBox with
   | some bb => [("width", jsNumToString bb.width ++ "px"),
                 ("height", jsNumToString bb.height ++ "px")]
   | none => []) ++
  (if truthyS node.layoutMode then
    [("display", "flex"),
     ("flexDirection",
       if node.layoutMode == some "HORIZONTAL" then "row" else "column")] ++
      (if truthyQ node.itemSpacing then
        [("gap", jsNumToString (node.itemSpacing.getD 0) ++ "px")] else [])
   else []) ++
  (match node.backgroundColor with
   | some c => [("backgroundColor", colorToCSS c none)]
   | none => []) ++
  (if truthyQ node.cornerRadius then
    [("borderRadius", jsNumToString (node.cornerRadius.getD 0) ++ "px")] else [])

end AdvancedCodeGenerator

namespace CodeGenerator

/-- Legacy `CodeGenerator.extractStyles` (code-generator.ts:225-243). -/
def extractStyles (node : FigmaNode) : List (String × String) :=
  (match node.absoluteBoundingBox with
   | some bb => [("width", jsNumToString bb.width ++ "px"),
                 ("height", jsNumToString bb.height ++ "px")]
   | none => []) ++
  (match node.backgroundColor with
   | some c => [("backgroundColor",
      "rgba(" ++ toString (jsRound (c.r * 255)) ++ ", " ++
        toString (jsRound (c.g * 255)) ++ ", " ++
        toString (jsRound (c.b * 255)) ++ ", " ++ jsNumToString c.a ++ ")")]
   | none => []) ++
  (if truthyQ node.cornerRadius then
    [("borderRadius", jsNumToString (node.cornerRadius.getD 0) ++ "px")] else [])

end CodeGenerator

/-! ### C7: the spacing-step conversion -/

/-- The C7 claim's reading of the spacing conversion: divide by 4 and
floor, bracket fallback exactly when the floored value exceeds 96. -/
def tailwindSpacingClaimC7 (px : ℚ) : String :=
  if ⌊px / 4⌋ > 96 then "[" ++ jsNumToString px ++ "px]"
  else toString ⌊px / 4⌋

/-- C7 counterexample: at `px = 6` the code emits step "2"
(`Math.round(6/4) = 2`, rounding half up) while the claim's
divide-and-floor reading demands "1". -/
theorem claim_C7_counterexample :
    (0 : ℚ) < 6 ∧
    AdvancedCodeGenerator.pxToTailwindSpacing 6 = "2" ∧
    tailwindSpacingClaimC7 6 = "1" := by
  decide

/-- C7 (amended): for positive `px` the emitted step is `px / 4` rounded
half up — equivalently `(px + 2) / 4` floored — not floored; the result is
clamped to "0" when the rounded step is nonpositive, and the bracketed
arbitrary-value class `[<px>px]` is used exactly when the rounded step
exceeds 96. -/
theorem claim_C7_spacing_round (px : ℚ) (_h : 0 < px) :
    AdvancedCodeGenerator.pxToTailwindSpacing px =
      (if ⌊(px + 2) / 4⌋ ≤ 0 then "0"
       else if ⌊(px + 2) / 4⌋ ≤ 96 then toString ⌊(px + 2) / 4⌋
       else "[" ++ jsNumToString px ++ "px]") := by
  unfold AdvancedCodeGenerator.pxToTailwindSpacing jsRound
  rw [show px / 4 + 1 / 2 = (px + 2) / 4 by ring]

theorem claim_C7_spacing_round_witness :
    (0 : ℚ) < 6 ∧
    AdvancedCodeGenerator.pxToTailwindSpacing 6 =
      (if ⌊((6 : ℚ) + 2) / 4⌋ ≤ 0 then "0"
       else if ⌊((6 : ℚ) + 2) / 4⌋ ≤ 96 then toString ⌊((6 : ℚ) + 2) / 4⌋
       else "[" ++ jsNumToString 6 ++ "px]") :=
  ⟨by decide, claim_C7_spacing_round 6 (by decide)⟩

/-! ### C10: a zero-valued attribute behaves like an absent one -/

/-- C10: setting any spacing / padding / corner-radius attribute to `0`
produces exactly the same utility classes and the same extracted style
record as omitting the attribute, in both generator classes. -/
theorem claim_C10_zero_is_absent (d : NodeData) (c : List FigmaNode) :
    (AdvancedCodeGenerator.generateTailwindClasses (.mk { d with itemSpacing := some 0 } c) =
      AdvancedCodeGenerator.generateTailwindClasses (.mk { d with itemSpacing := none } c)) ∧
    (AdvancedCodeGenerator.generateTailwindClasses (.mk { d with paddingLeft := some 0 } c) =
      AdvancedCodeGenerator.generateTailwindClasses (.mk { d with paddingLeft := none } c)) ∧
    (AdvancedCodeGenerator.generateTailwindClasses (.mk { d with paddingRight := some 0 } c) =
      AdvancedCodeGenerator.generateTailwindClasses (.mk { d with paddingRight := none } c)) ∧
    (AdvancedCodeGenerator.generateTailwindClasses (.mk { d with paddingTop := some 0 } c) =
      AdvancedCodeGenerator.generateTailwindClasses (.mk { d with paddingTop := none } c)) ∧
    (AdvancedCodeGenerator.generateTailwindClasses (.mk { d with paddingBottom := some 0 } c) =
      AdvancedCodeGenerator.generateTailwindClasses (.mk { d with paddingBottom := none } c)) ∧
    (AdvancedCodeGenerator.generateTailwindClasses (.mk { d with cornerRadius := some 0 } c) =
      AdvancedCodeGenerator.generateTailwindClasses (.mk { d with cornerRadius := none } c)) ∧
    (AdvancedCodeGenerator.extractAllStyles (.mk { d with itemSpacing := some 0 } c) =
      AdvancedCodeGenerator.extractAllStyles (.mk { d with itemSpacing := none } c)) ∧
    (AdvancedCodeGenerator.extractAllStyles (.mk { d with paddingLeft := some 0 } c) =
      AdvancedCodeGenerator.extractAllStyles (.mk { d with paddingLeft := none } c)) ∧
    (AdvancedCodeGenerator.extractAllStyles (.mk { d with paddingRight := some 0 } c) =
      AdvancedCodeGenerator.extractAllStyles (.mk { d with paddingRight := none } c)) ∧
    (AdvancedCodeGenerator.extractAllStyles (.mk { d with paddingTop := some 0 } c) =
      AdvancedCodeGenerator.extractAllStyles (.mk { d with paddingTop := none } c)) ∧
    (AdvancedCodeGenerator.extractAllStyles (.mk { d with paddingBottom := some 0 } c) =
      AdvancedCodeGenerator.extractAllStyles (.mk { d with paddingBottom := none } c)) ∧
    (AdvancedCodeGenerator.extractAllStyles (.mk { d with cornerRadius := some 0 } c) =
      AdvancedCodeGenerator.extractAllStyles (.mk { d with cornerRadius := none } c)) ∧
    (CodeGenerator.extractStyles (.mk { d with cornerRadius := some 0 } c) =
      CodeGenerator.extractStyles (.mk { d with cornerRadius := none } c)) := by
  refine ⟨?_, ?_, ?_, ?_, ?_, ?_, ?_, ?_, ?_, ?_, ?_, ?_, ?_⟩ <;>
    simp [AdvancedCodeGenerator.generateTailwindClasses,
      AdvancedCodeGenerator.extractAllStyles, CodeGenerator.extractStyles,
      truthyQ, truthyS, FigmaNode.itemSpacing, FigmaNode.paddingLeft,
      FigmaNode.paddingRight, FigmaNode.paddingTop, FigmaNode.paddingBottom,
      FigmaNode.cornerRadius, FigmaNode.layoutMode, FigmaNode.backgroundColor,
      FigmaNode.absoluteBoundingBox, FigmaNode.data]

/-! ## `AdvancedCodeGenerator`: the generation engine
(code-generator.ts:333-620).  `framework` and `styling` are modelled as
runtime strings because TypeScript union types are erased: the generator
performs string comparisons only.  The thrown `ReferenceError` on the
non-react markup path (`return jsx` with no `jsx` in scope,
code-generator.ts:441) is modelled as `Except.error`.  Wall-clock
generation durations are supplied by an oracle `time : ℕ → ℕ` giving the
duration of the i-th generated artifact. -/

/-- The opening-brace character, written via its code point so that
generated-output string literals stay readable. -/
def braceOpen : Char := Char.ofNat 123

/-- The closing-brace character. -/
def braceClose : Char := Char.ofNat 125

structure CodeGenerationOptions where
  framework : String
  styling : String
  typescript : Bool
  accessibility : Bool
  responsive : Bool
  optimizeImages : Bool
deriving Repr, DecidableEq

structure CustomCodeInputs where
  jsx : String
  css : String
  cssAdvanced : String
deriving Repr, DecidableEq

structure ComponentRef where
  key : String
  name : String
deriving Repr, DecidableEq

/-- The slice of the design-API response the generator reads: the document
root and the declared-components record (an insertion-ordered map, as
iterated by `Object.entries`). -/
structure FigmaApiResponse where
  document : FigmaNode
  components : List (String × ComponentRef)
deriving Repr

structure PropSpec where
  name : String
  type : String
  optional : Bool
deriving Repr, DecidableEq

/-- Run-of-whitespace collapsing, model of `.replace(/\s+/g, '-')`; the
flag records whether the previous character was inside a whitespace run. -/
def collapseWsAux : Bool → List Char → List Char
  | _, [] => []
  | prevWs, c :: rest =>
    if isJsWs c then
      if prevWs then collapseWsAux true rest
      else '-' :: collapseWsAux true rest
    else c :: collapseWsAux false rest

def replaceWsRuns (l : List Char) : List Char :=
  collapseWsAux false l

namespace AdvancedCodeGenerator

/-- `extractProps` (code-generator.ts:574-591). -/
def extractProps (node : FigmaNode) : List PropSpec :=
  (if node.type == "TEXT" && truthyS node.characters then
    [⟨"children", "React.ReactNode", true⟩] else []) ++
  (if isImage node then
    [⟨"src", "string", false⟩, ⟨"alt", "string", false⟩,
     ⟨"width", "number", false⟩, ⟨"height", "number", false⟩] else []) ++
  [⟨"className", "string", true⟩]

/-- `generateNextJSImports` (code-generator.ts:444-457). -/
def generateNextJSImports (node : FigmaNode) : String :=
  String.intercalate "\n"
    (["import React from \"react\""] ++
     (if isImage node then ["import Image from \"next/image\""] else []) ++
     (if hasLinks node then ["import Link from \"next/link\""] else []))

/-- `getNextJSTag` (code-generator.ts:479-488). -/
def getNextJSTag (node : FigmaNode) : String :=
  if node.type == "TEXT" then (if isHeading node then "h2" else "span")
  else if node.type == "FRAME" then "div"
  else if node.type == "RECTANGLE" then (if isImage node then "Image" else "div")
  else if node.type == "COMPONENT" || node.type == "INSTANCE" then "div"
  else "div"

/-- `generateNextJSAttributes` (code-generator.ts:490-498). -/
def generateNextJSAttributes (node : FigmaNode) : String :=
  let attributes : List String :=
    if isImage node then
      ["src=\x7bsrc\x7d", "alt=\x7balt\x7d", "width=\x7bwidth\x7d",
       "height=\x7bheight\x7d"]
    else []
  if attributes.length > 0 then " " ++ String.intercalate " " attributes else ""

/-- `generateClassName` (code-generator.ts:606-611). -/
def generateClassName (opts : CodeGenerationOptions) (node : FigmaNode) : String :=
  if opts.styling == "tailwind" then generateTailwindClasses node
  else ((replaceWsRuns (jsToLower node.name).toList).filter isLowerAlnumDash).asString

/-- `generateInlineStyles` (code-generator.ts:613-622). -/
def generateInlineStyles (opts : CodeGenerationOptions) (node : FigmaNode) : String :=
  if opts.styling == "tailwind" then ""
  else
    let styleEntries :=
      String.intercalate ", "
        ((extractAllStyles node).map (fun p => p.1 ++ ": \"" ++ p.2 ++ "\""))
    if styleEntries ≠ "" then "\x7b\x7b " ++ styleEntries ++ " \x7d\x7d" else ""

/-- The `${className ? ...}${styles ? ...}` attribute fragment shared by
the three arms of `generateJSXElement`. -/
def classStyleAttrs (className styles : String) : String :=
  (if className ≠ "" then " className=\"" ++ className ++ "\"" else "") ++
  (if styles ≠ "" then " style=\x7b" ++ styles ++ "\x7d" else "")

/-- `generateJSXElement` (code-generator.ts:459-477). -/
def generateJSXElement (node : FigmaNode) (className styles children : String)
    (depth : ℕ) : String :=
  let indent := String.join (List.replicate depth "  ")
  let tag := getNextJSTag node
  let attributes := generateNextJSAttributes node
  if node.type == "TEXT" && truthyS node.characters then
    indent ++ "<" ++ tag ++ classStyleAttrs className styles ++ attributes ++ ">\n" ++
      indent ++ "  \x7b" ++
      (if truthyS node.characters then "\"" ++ node.characters.getD "" ++ "\""
       else "children") ++ "\x7d\n" ++
      indent ++ "</" ++ tag ++ ">"
  else if children ≠ "" then
    indent ++ "<" ++ tag ++ classStyleAttrs className styles ++ attributes ++ ">\n" ++
      children ++ "\n" ++ indent ++ "</" ++ tag ++ ">"
  else
    indent ++ "<" ++ tag ++ classStyleAttrs className styles ++ attributes ++ " />"

mutual

/-- `generateChildren` (code-generator.ts:593-604). -/
def generateChildren (opts : CodeGenerationOptions) : FigmaNode → String
  | .mk _ cs =>
    if cs.isEmpty then ""
    else String.intercalate "\n" (generateChildrenList opts cs)

def generateChildrenList (opts : CodeGenerationOptions) : List FigmaNode → List String
  | [] => []
  | child :: rest =>
    generateJSXElement child (generateClassName opts child)
        (generateInlineStyles opts child) (generateChildren opts child) 2 ::
      generateChildrenList opts rest

end

/-- `generatePropsInterface` (code-generator.ts:801-809). -/
def generatePropsInterface (props : List PropSpec) (componentName : String) : String :=
  if props.length == 0 then ""
  else
    "interface " ++ componentName ++ "Props \x7b\n  " ++
      String.intercalate "\n  "
        (props.map (fun p =>
          p.name ++ (if p.optional then "?" else "") ++ ": " ++ p.type ++ ";")) ++
      "\n\x7d\n\n"

/-- The `componentSignature` ternary of `generateJSX` (code-generator.ts:419-421). -/
def componentSignature (opts : CodeGenerationOptions) (props : List PropSpec)
    (componentName : String) : String :=
  if opts.typescript then
    "export const " ++ componentName ++ ": React.FC<" ++ componentName ++
      "Props> = (\x7b " ++ String.intercalate ", " (props.map PropSpec.name) ++ " \x7d)"
  else
    "export const " ++ componentName ++ " = (\x7b " ++
      String.intercalate ", " (props.map PropSpec.name) ++ " \x7d)"

/-- The `customJSXSection` ternary of `generateJSX` (code-generator.ts:424-428). -/
def customJSXSection (custom : CustomCodeInputs) : String :=
  if custom.jsx ≠ "" then
    "\n  // === CUSTOM JSX CODE ===\n  " ++ custom.jsx ++
      "\n  // === END CUSTOM JSX CODE ===\n"
  else ""

/-- `generateJSX` (code-generator.ts:410-442).  On any framework other
than `"react"` the source executes `return jsx` where no `jsx` binding is
in scope, which throws a `ReferenceError` at run time. -/
def generateJSX (opts : CodeGenerationOptions) (custom : CustomCodeInputs)
    (node : FigmaNode) (componentName : String) : Except String String :=
  let props := extractProps node
  let children := generateChildren opts node
  let className := generateClassName opts node
  let styles := generateInlineStyles opts node
  if opts.framework == "react" then
    let imports := generateNextJSImports node
    let propsInterface :=
      if opts.typescript then generatePropsInterface props componentName else ""
    .ok (imports ++ "\n" ++ propsInterface ++ "\n" ++
      componentSignature opts props componentName ++ " => \x7b" ++
      customJSXSection custom ++ "\n  return (\n    " ++
      generateJSXElement node className styles children 1 ++
      "\n  )\n\x7d\n\nexport default " ++ componentName)
  else
    .error "ReferenceError: jsx is not defined"

/-- `camelToKebab` (code-generator.ts:888-890): the regex inserts a hyphen
before every uppercase letter, then the whole string is lower-cased. -/
def camelToKebab (s : String) : String :=
  (((s.toList.map (fun c => if upperChars.contains c then ['-', c] else [c])).flatten).map
    lowChar).asString

/-- `convertToCSSRules` (code-generator.ts:708-714). -/
def convertToCSSRules (styles : List (String × String)) (componentName : String) : String :=
  let cssRules :=
    String.intercalate "\n"
      (styles.map (fun p => "  " ++ camelToKebab p.1 ++ ": " ++ p.2 ++ ";"))
  "." ++ jsToLower componentName ++ " \x7b\n" ++ cssRules ++ "\n\x7d"

/-- `generateCSSModules` (code-generator.ts:716-718). -/
def generateCSSModules (cssRules : String) : String :=
  cssRules

/-- Model of `.replace(/^\.[^{]+\{/, '')` on the rule block. -/
def stripLeadingSelector (s : String) : String :=
  match s.toList with
  | '.' :: rest =>
    let body := rest.takeWhile (fun c => c ≠ braceOpen)
    let remainder := rest.dropWhile (fun c => c ≠ braceOpen)
    match body, remainder with
    | _ :: _, b :: tail => if b = braceOpen then tail.asString else s
    | _, _ => s
  | _ => s

/-- Model of `.replace(/\}$/, '')`: drop one closing brace at the end of
the string (or just before one final newline, per JS `$`). -/
def stripTrailingBrace (s : String) : String :=
  match s.toList.reverse with
  | c :: rest =>
    if c = braceClose then rest.reverse.asString
    else if c = '\n' then
      match rest with
      | c2 :: rest2 =>
        if c2 = braceClose then (rest2.reverse ++ ['\n']).asString else s
      | [] => s
    else s
  | [] => s

/-- `generateStyledComponents` (code-generator.ts:720-726). -/
def generateStyledComponents (cssRules componentName : String) : String :=
  "import styled from \x27styled-components\x27\n\nexport const Styled" ++
    componentName ++ " = styled.div\x60\n" ++
    stripTrailingBrace (stripLeadingSelector cssRules) ++ "\n\x60"

/-- `generatePlainCSS` (code-generator.ts:728-730). -/
def generatePlainCSS (cssRules : String) (_componentName : String) : String :=
  cssRules

/-- `generateTailwindCSS` (code-generator.ts:698-706). -/
def generateTailwindCSS (node : FigmaNode) : String :=
  let classes := generateTailwindClasses node
  "/* Figma-based Tailwind classes: " ++ classes ++ " */\n\n" ++
    "/* Component base styles */\n." ++
    jsToLower (sanitizeComponentName node.name) ++ " \x7b\n  @apply " ++
    classes ++ ";\n\x7d"

/-- `generateCSS` (code-generator.ts:501-534).  Any `styling` value other
than the three recognized ones silently falls through to the plain-CSS
arm of the if/else chain. -/
def generateCSS (opts : CodeGenerationOptions) (custom : CustomCodeInputs)
    (node : FigmaNode) (componentName : String) : String :=
  let baseCSS :=
    if opts.styling == "tailwind" then generateTailwindCSS node
    else
      let cssRules := convertToCSSRules (extractAllStyles node) componentName
      if opts.styling == "css-modules" then generateCSSModules cssRules
      else if opts.styling == "styled-components" then
        generateStyledComponents cssRules componentName
      else generatePlainCSS cssRules componentName
  let customCSSSection :=
    if custom.css ≠ "" then
      "\n\n/* === CUSTOM CSS STYLES === */\n" ++ custom.css ++
        "\n/* === END CUSTOM CSS STYLES === */"
    else ""
  let advancedCSSSection :=
    if custom.cssAdvanced ≠ "" then
      "\n\n/* === ADVANCED CSS++ FEATURES === */\n" ++ custom.cssAdvanced ++
        "\n/* === END ADVANCED CSS++ FEATURES === */"
    else ""
  baseCSS ++ customCSSSection ++ advancedCSSSection

/-- `generateTypeScript` (code-generator.ts:811-819). -/
def generateTypeScript (node : FigmaNode) (componentName : String) : String :=
  let props := extractProps node
  "export interface " ++ componentName ++ "Props \x7b\n  " ++
    String.intercalate "\n  "
      (props.map (fun p =>
        p.name ++ (if p.optional then "?" else "") ++ ": " ++ p.type ++ ";")) ++
    "\n\x7d\n\nexport type " ++ componentName ++ "Ref = HTMLDivElement;"

/-- `detectComponentType` (code-generator.ts:896-906). -/
def detectComponentType (node : FigmaNode) : String :=
  let name := jsToLower node.name
  if jsIncludes name "button" then "button"
  else if jsIncludes name "card" then "card"
  else if jsIncludes name "text" || node.type == "TEXT" then "text"
  else if jsIncludes name "input" then "input"
  else if node.children.length > 3 then "layout"
  else "complex"

/-- `calculateComplexity` (code-generator.ts:908-918). -/
def calculateComplexity (node : FigmaNode) : String :=
  let complexity :=
    node.children.length + (if node.effects.length > 0 then 2 else 0) +
      (if node.fills.length > 1 then 1 else 0)
  if complexity ≤ 3 then "simple"
  else if complexity ≤ 8 then "medium"
  else "complex"

/-- `estimateAccuracy` (code-generator.ts:920-930). -/
def estimateAccuracy (node : FigmaNode) : ℤ :=
  let accuracy : ℤ :=
    85 + (if calculateComplexity node == "simple" then 10 else 0) -
      (if node.children.length > 5 then 5 else 0) +
      (if detectComponentType node ∈ (["button", "text", "card"] : List String)
       then 5 else 0)
  min 100 (max 70 accuracy)

/-- `extractDependencies` (code-generator.ts:932-940). -/
def extractDependencies (opts : CodeGenerationOptions) (node : FigmaNode) : List String :=
  ["react", "next"] ++
  (if opts.typescript then ["@types/react", "@types/node"] else []) ++
  (if isImage node then ["next/image"] else []) ++
  (if opts.styling == "styled-components" then ["styled-components"] else [])

/-- `generateMetadata` (code-generator.ts:790-799). -/
def generateMetadata (opts : CodeGenerationOptions) (node : FigmaNode)
    (generationTime : ℕ) : ComponentMetadata :=
  { figmaNodeId := node.id
    componentType := detectComponentType node
    complexity := calculateComplexity node
    estimatedAccuracy := estimateAccuracy node
    generationTime := generationTime
    dependencies := extractDependencies opts node }

mutual

/-- The recursive `search` closure of `findNodeById` (code-generator.ts:537-549). -/
def findNodeByIdIn (id : String) : FigmaNode → Option FigmaNode
  | .mk d cs => if d.id == id then some (.mk d cs) else findNodeByIdInList id cs

def findNodeByIdInList (id : String) : List FigmaNode → Option FigmaNode
  | [] => none
  | c :: rest =>
    match findNodeByIdIn id c with
    | some found => some found
    | none => findNodeByIdInList id rest

end

mutual

/-- The recursive `traverse` closure of `findMainFrames` (code-generator.ts:551-565). -/
def findMainFramesIn : FigmaNode → List FigmaNode
  | .mk d cs =>
    (if d.type == "FRAME" && !cs.isEmpty then [FigmaNode.mk d cs] else []) ++
      findMainFramesList cs

def findMainFramesList : List FigmaNode → List FigmaNode
  | [] => []
  | c :: rest => findMainFramesIn c ++ findMainFramesList rest

end

/-- `generateSingleComponent` (code-generator.ts:387-407); `genTime` is
the wall-clock duration oracle value for this artifact. -/
def generateSingleComponent (opts : CodeGenerationOptions) (custom : CustomCodeInputs)
    (node : FigmaNode) (componentName : String) (genTime : ℕ) :
    Except String GeneratedComponent :=
  let sanitizedName := sanitizeComponentName componentName
  (generateJSX opts custom node sanitizedName).map fun jsx =>
    { id := node.id
      name := sanitizedName
      jsx := jsx
      css := generateCSS opts custom node sanitizedName
      typescript :=
        if opts.typescript then some (generateTypeScript node sanitizedName) else none
      accessibility := analyzeAccessibility node
      responsive := analyzeResponsive node
      metadata := generateMetadata opts node genTime }

/-- The `Object.entries(...).forEach` loop of `generateComponents`
(code-generator.ts:368-374): unresolved keys are skipped; a thrown
generation error aborts the whole call. -/
def generateFromComponentEntries (opts : CodeGenerationOptions)
    (custom : CustomCodeInputs) (doc : FigmaNode) :
    List (String × ComponentRef) → (ℕ → ℕ) → ℕ →
      Except String (List GeneratedComponent)
  | [], _, _ => .ok []
  | (_, comp) :: rest, time, i =>
    match findNodeByIdIn comp.key doc with
    | none => generateFromComponentEntries opts custom doc rest time i
    | some node =>
      match generateSingleComponent opts custom node comp.name (time i) with
      | .error e => .error e
      | .ok g =>
        match generateFromComponentEntries opts custom doc rest time (i + 1) with
        | .error e => .error e
        | .ok gs => .ok (g :: gs)

/-- The main-frames fallback loop of `generateComponents`
(code-generator.ts:377-382). -/
def generateFromFrames (opts : CodeGenerationOptions) (custom : CustomCodeInputs) :
    List FigmaNode → (ℕ → ℕ) → ℕ → Except String (List GeneratedComponent)
  | [], _, _ => .ok []
  | frame :: rest, time, i =>
    match generateSingleComponent opts custom frame frame.name (time i) with
    | .error e => .error e
    | .ok g =>
      match generateFromFrames opts custom rest time (i + 1) with
      | .error e => .error e
      | .ok gs => .ok (g :: gs)

/-- `generateComponents` (code-generator.ts:364-385). -/
def generateComponents (data : FigmaApiResponse) (opts : CodeGenerationOptions)
    (custom : CustomCodeInputs) (time : ℕ → ℕ) :
    Except String (List GeneratedComponent) :=
  match generateFromComponentEntries opts custom data.document data.components time 0 with
  | .error e => .error e
  | .ok comps =>
    if comps.isEmpty then
      generateFromFrames opts custom (findMainFramesIn data.document) time 0
    else .ok comps

end AdvancedCodeGenerator


/-! ### C1: determinism up to `generationTime` -/

/-- Zero out the only wall-clock-dependent output field. -/
def eraseGenerationTime (g : GeneratedComponent) : GeneratedComponent :=
  { g with metadata := { g.metadata with generationTime := 0 } }

theorem exmap_error {ε α β : Type} (f : α → β) (e : ε) :
    (Except.error e : Except ε α).map f = .error e := rfl

theorem exmap_ok {ε α β : Type} (f : α → β) (a : α) :
    (Except.ok a : Except ε α).map f = .ok (f a) := rfl

namespace AdvancedCodeGenerator

theorem generateSingleComponent_erase (opts : CodeGenerationOptions)
    (custom : CustomCodeInputs) (node : FigmaNode) (name : String) (t t' : ℕ) :
    (generateSingleComponent opts custom node name t).map eraseGenerationTime =
    (generateSingleComponent opts custom node name t').map eraseGenerationTime := by
  simp only [generateSingleComponent]
  cases h : generateJSX opts custom node (sanitizeComponentName name) <;>
    simp [h, exmap_error, exmap_ok, eraseGenerationTime, generateMetadata]

theorem generateFromComponentEntries_erase (opts : CodeGenerationOptions)
    (custom : CustomCodeInputs) (doc : FigmaNode) :
    ∀ (entries : List (String × ComponentRef)) (t t' : ℕ → ℕ) (i j : ℕ),
    (generateFromComponentEntries opts custom doc entries t i).map
        (List.map eraseGenerationTime) =
    (generateFromComponentEntries opts custom doc entries t' j).map
        (List.map eraseGenerationTime) := by
  intro entries
  induction entries with
  | nil => intro t t' i j; rfl
  | cons e rest ih =>
    intro t t' i j
    obtain ⟨k, comp⟩ := e
    unfold generateFromComponentEntries
    cases hfind : findNodeByIdIn comp.key doc with
    | none => simp only [hfind]; exact ih t t' i j
    | some node =>
      have hs := generateSingleComponent_erase opts custom node comp.name (t i) (t' j)
      cases h1 : generateSingleComponent opts custom node comp.name (t i) with
      | error e1 =>
        cases h2 : generateSingleComponent opts custom node comp.name (t' j) with
        | error e2 =>
          rw [h1, h2, exmap_error, exmap_error] at hs
          simp only [Except.error.injEq] at hs
          simp [hfind, h1, h2, hs]
        | ok g2 =>
          rw [h1, h2, exmap_error, exmap_ok] at hs
          exact absurd hs (by simp)
      | ok g1 =>
        cases h2 : generateSingleComponent opts custom node comp.name (t' j) with
        | error e2 =>
          rw [h1, h2, exmap_ok, exmap_error] at hs
          exact absurd hs (by simp)
        | ok g2 =>
          rw [h1, h2, exmap_ok, exmap_ok] at hs
          simp only [Except.ok.injEq] at hs
          have hrest := ih t t' (i + 1) (j + 1)
          cases h3 : generateFromComponentEntries opts custom doc rest t (i + 1) with
          | error e3 =>
            cases h4 : generateFromComponentEntries opts custom doc rest t' (j + 1) with
            | error e4 =>
              rw [h3, h4, exmap_error, exmap_error] at hrest
              simp only [Except.error.injEq] at hrest
              simp [hfind, h1, h2, h3, h4, hrest]
            | ok l4 =>
              rw [h3, h4, exmap_error, exmap_ok] at hrest
              exact absurd hrest (by simp)
          | ok l3 =>
            cases h4 : generateFromComponentEntries opts custom doc rest t' (j + 1) with
            | error e4 =>
              rw [h3, h4, exmap_ok, exmap_error] at hrest
              exact absurd hrest (by simp)
            | ok l4 =>
              rw [h3, h4, exmap_ok, exmap_ok] at hrest
              simp only [Except.ok.injEq] at hrest
              simp [hfind, h1, h2, h3, h4, exmap_ok, List.map_cons, hs, hrest]

theorem generateFromFrames_erase (opts : CodeGenerationOptions)
    (custom : CustomCodeInputs) :
    ∀ (frames : List FigmaNode) (t t' : ℕ → ℕ) (i j : ℕ),
    (generateFromFrames opts custom frames t i).map (List.map eraseGenerationTime) =
    (generateFromFrames opts custom frames t' j).map (List.map eraseGenerationTime) := by
  intro frames
  induction frames with
  | nil => intro t t' i j; rfl
  | cons frame rest ih =>
    intro t t' i j
    unfold generateFromFrames
    have hs := generateSingleComponent_erase opts custom frame frame.name (t i) (t' j)
    cases h1 : generateSingleComponent opts custom frame frame.name (t i) with
    | error e1 =>
      cases h2 : generateSingleComponent opts custom frame frame.name (t' j) with
      | error e2 =>
        rw [h1, h2, exmap_error, exmap_error] at hs
        simp only [Except.error.injEq] at hs
        simp [h1, h2, hs]
      | ok g2 =>
        rw [h1, h2, exmap_error, exmap_ok] at hs
        exact absurd hs (by simp)
    | ok g1 =>
      cases h2 : generateSingleComponent opts custom frame frame.name (t' j) with
      | error e2 =>
        rw [h1, h2, exmap_ok, exmap_error] at hs
        exact absurd hs (by simp)
      | ok g2 =>
        rw [h1, h2, exmap_ok, exmap_ok] at hs
        simp only [Except.ok.injEq] at hs
        have hrest := ih t t' (i + 1) (j + 1)
        cases h3 : generateFromFrames opts custom rest t (i + 1) with
        | error e3 =>
          cases h4 : generateFromFrames opts custom rest t' (j + 1) with
          | error e4 =>
            rw [h3, h4, exmap_error, exmap_error] at hrest
            simp only [Except.error.injEq] at hrest
            simp [h1, h2, h3, h4, hrest]
          | ok l4 =>
            rw [h3, h4, exmap_error, exmap_ok] at hrest
            exact absurd hrest (by simp)
        | ok l3 =>
          cases h4 : generateFromFrames opts custom rest t' (j + 1) with
          | error e4 =>
            rw [h3, h4, exmap_ok, exmap_error] at hrest
            exact absurd hrest (by simp)
          | ok l4 =>
            rw [h3, h4, exmap_ok, exmap_ok] at hrest
            simp only [Except.ok.injEq] at hrest
            simp [h1, h2, h3, h4, exmap_ok, List.map_cons, hs, hrest]

end AdvancedCodeGenerator

/-- C1: for a fixed input (document, options, custom code), two
invocations of `generateComponents` — run with arbitrary and unrelated
wall-clock duration oracles `t`, `t'` — agree on every output field of
every generated artifact except `metadata.generationTime` (erased to `0`
on both sides before comparing), and agree on whether the call fails. -/
theorem claim_C1_determinism (data : FigmaApiResponse)
    (opts : CodeGenerationOptions) (custom : CustomCodeInputs) (t t' : ℕ → ℕ) :
    (AdvancedCodeGenerator.generateComponents data opts custom t).map
        (List.map eraseGenerationTime) =
    (AdvancedCodeGenerator.generateComponents data opts custom t').map
        (List.map eraseGenerationTime) := by
  unfold AdvancedCodeGenerator.generateComponents
  have he := AdvancedCodeGenerator.generateFromComponentEntries_erase opts custom
    data.document data.components t t' 0 0
  cases h1 : AdvancedCodeGenerator.generateFromComponentEntries opts custom
      data.document data.components t 0 with
  | error e1 =>
    cases h2 : AdvancedCodeGenerator.generateFromComponentEntries opts custom
        data.document data.components t' 0 with
    | error e2 =>
      rw [h1, h2, exmap_error, exmap_error] at he
      simp only [Except.error.injEq] at he
      simp [h1, h2, he]
    | ok l2 =>
      rw [h1, h2, exmap_error, exmap_ok] at he
      exact absurd he (by simp)
  | ok l1 =>
    cases h2 : AdvancedCodeGenerator.generateFromComponentEntries opts custom
        data.document data.components t' 0 with
    | error e2 =>
      rw [h1, h2, exmap_ok, exmap_error] at he
      exact absurd he (by simp)
    | ok l2 =>
      rw [h1, h2, exmap_ok, exmap_ok] at he
      simp only [Except.ok.injEq] at he
      have hemp : l1.isEmpty = l2.isEmpty := by
        have hlen : l1.length = l2.length := by
          have := congrArg List.length he
          simpa using this
        cases l1 <;> cases l2 <;> simp_all
      by_cases hl : l1.isEmpty = true
      · have hl2 : l2.isEmpty = true := hemp ▸ hl
        simp only [h1, h2, hl, hl2, if_true]
        exact AdvancedCodeGenerator.generateFromFrames_erase opts custom
          (AdvancedCodeGenerator.findMainFramesIn data.document) t t' 0 0
      · have hl2 : ¬ l2.isEmpty = true := by rw [← hemp]; exact hl
        simp [h1, h2, hl, hl2, exmap_ok, he]

/-! ### The react-path success lemmas shared by C2 and C8 -/

namespace AdvancedCodeGenerator

theorem generateJSX_react_ok (opts : CodeGenerationOptions)
    (custom : CustomCodeInputs) (node : FigmaNode) (name : String)
    (h : opts.framework = "react") :
    ∃ s, generateJSX opts custom node name = .ok s := by
  simp only [generateJSX, h, beq_self_eq_true, if_true]
  exact ⟨_, rfl⟩

theorem generateSingleComponent_react (opts : CodeGenerationOptions)
    (custom : CustomCodeInputs) (node : FigmaNode) (name : String) (t : ℕ)
    (h : opts.framework = "react") :
    ∃ g, generateSingleComponent opts custom node name t = .ok g ∧
      g.id = node.id ∧ g.name = sanitizeComponentName name := by
  simp only [generateSingleComponent]
  obtain ⟨s, hs⟩ := generateJSX_react_ok opts custom node (sanitizeComponentName name) h
  rw [hs, exmap_ok]
  exact ⟨_, rfl, rfl, rfl⟩

/-- The declared components that resolve to a node in the tree, paired
with their declared names, in declaration order. -/
def resolvedEntries (doc : FigmaNode) (entries : List (String × ComponentRef)) :
    List (FigmaNode × String) :=
  entries.filterMap (fun e => (findNodeByIdIn e.2.key doc).map (fun n => (n, e.2.name)))

theorem generateFromComponentEntries_react (opts : CodeGenerationOptions)
    (custom : CustomCodeInputs) (doc : FigmaNode)
    (h : opts.framework = "react") :
    ∀ (entries : List (String × ComponentRef)) (t : ℕ → ℕ) (i : ℕ),
    ∃ comps, generateFromComponentEntries opts custom doc entries t i = .ok comps ∧
      comps.map GeneratedComponent.id =
        (resolvedEntries doc entries).map (fun p => p.1.id) ∧
      comps.map GeneratedComponent.name =
        (resolvedEntries doc entries).map (fun p => sanitizeComponentName p.2) := by
  intro entries
  induction entries with
  | nil => intro t i; exact ⟨[], rfl, rfl, rfl⟩
  | cons e rest ih =>
    intro t i
    obtain ⟨k, comp⟩ := e
    unfold generateFromComponentEntries
    cases hfind : findNodeByIdIn comp.key doc with
    | none =>
      obtain ⟨comps, hc, hid, hname⟩ := ih t i
      refine ⟨comps, by simp [hfind, hc], ?_, ?_⟩ <;>
        simp [resolvedEntries, List.filterMap_cons, hfind] <;>
        simpa [resolvedEntries] using (by assumption : _)
    | some node =>
      obtain ⟨g, hg, hgid, hgname⟩ :=
        generateSingleComponent_react opts custom node comp.name (t i) h
      obtain ⟨comps, hc, hid, hname⟩ := ih t (i + 1)
      refine ⟨g :: comps, by simp [hfind, hg, hc], ?_, ?_⟩ <;>
        simp [resolvedEntries, List.filterMap_cons, hfind, hgid, hgname] <;>
        simpa [resolvedEntries] using (by assumption : _)

theorem generateFromFrames_react (opts : CodeGenerationOptions)
    (custom : CustomCodeInputs) (h : opts.framework = "react") :
    ∀ (frames : List FigmaNode) (t : ℕ → ℕ) (i : ℕ),
    ∃ comps, generateFromFrames opts custom frames t i = .ok comps := by
  intro frames
  induction frames with
  | nil => intro t i; exact ⟨[], rfl⟩
  | cons frame rest ih =>
    intro t i
    obtain ⟨g, hg, _, _⟩ :=
      generateSingleComponent_react opts custom frame frame.name (t i) h
    obtain ⟨comps, hc⟩ := ih t (i + 1)
    exact ⟨g :: comps, by simp [generateFromFrames, hg, hc]⟩

end AdvancedCodeGenerator

/-! ### C2: behaviour under invalid generation options -/

/-- A text leaf inside the example frame. -/
def exChildText : FigmaNode :=
  .mk { plainNodeData "1:3" "Label" "TEXT" with characters := some "Hi" } []

/-- A frame with one child: picked up by the main-frames fallback. -/
def exFrame : FigmaNode :=
  .mk (plainNodeData "1:2" "Card Frame" "FRAME") [exChildText]

/-- A document with no declared components, triggering the fallback. -/
def exDoc : FigmaApiResponse :=
  { document := .mk (plainNodeData "0:0" "Document" "DOCUMENT") [exFrame]
    components := [] }

/-- Options whose styling value lies outside the four supported ones. -/
def exInvalidOpts : CodeGenerationOptions :=
  { framework := "react", styling := "scss", typescript := true,
    accessibility := true, responsive := true, optimizeImages := false }

def noCustom : CustomCodeInputs := ⟨"", "", ""⟩

/-- C2 counterexample: with the unsupported styling value `"scss"` the
call does not fail — it succeeds and returns one artifact, generated by
silently falling through to the plain-CSS emitter. -/
theorem claim_C2_counterexample :
    exInvalidOpts.styling ∉
      (["tailwind", "css-modules", "styled-components", "plain-css"] : List String) ∧
    (AdvancedCodeGenerator.generateComponents exDoc exInvalidOpts noCustom
        (fun _ => 0)).isOk = true ∧
    (AdvancedCodeGenerator.generateComponents exDoc exInvalidOpts noCustom
        (fun _ => 0)).toOption.map List.length = some 1 := by
  refine ⟨by decide, ?_, ?_⟩ <;> rfl

/-- C2 (amended): `generateComponents` performs no validation of
`GenerationOptions` at all.  With the `"react"` framework the call
succeeds for every styling string — an unsupported styling value is
silently routed to the plain-CSS emitter instead of failing; no
descriptive error is ever raised for it.  (A non-`"react"` framework
value aborts the call, but with a bare `ReferenceError`, not a
descriptive validation error.) -/
theorem claim_C2_no_options_validation (data : FigmaApiResponse)
    (opts : CodeGenerationOptions) (custom : CustomCodeInputs) (time : ℕ → ℕ)
    (h : opts.framework = "react") :
    (AdvancedCodeGenerator.generateComponents data opts custom time).isOk = true := by
  unfold AdvancedCodeGenerator.generateComponents
  obtain ⟨comps, hc, -, -⟩ :=
    AdvancedCodeGenerator.generateFromComponentEntries_react opts custom
      data.document h data.components time 0
  rw [hc]
  by_cases he : comps.isEmpty = true
  · obtain ⟨comps2, hc2⟩ :=
      AdvancedCodeGenerator.generateFromFrames_react opts custom h
        (AdvancedCodeGenerator.findMainFramesIn data.document) time 0
    simp only [he, if_true, hc2]
    rfl
  · simp only [he, if_false, Bool.false_eq_true, if_neg]
    rfl

theorem claim_C2_no_options_validation_witness :
    (AdvancedCodeGenerator.generateComponents exDoc exInvalidOpts noCustom
        (fun _ => 0)).isOk = true :=
  claim_C2_no_options_validation exDoc exInvalidOpts noCustom (fun _ => 0) rfl

/-! ### C8: unresolved declared components are skipped, not fatal -/

/-- A document declaring two components: key `"1:2"` resolves to
`exFrame`, key `"9:9"` resolves to nothing. -/
def exDoc8 : FigmaApiResponse :=
  { document := .mk (plainNodeData "0:0" "Document" "DOCUMENT") [exFrame]
    components := [("a", ⟨"1:2", "Card"⟩), ("b", ⟨"9:9", "Ghost"⟩)] }

/-- Valid react/tailwind options. -/
def exOptsReact : CodeGenerationOptions :=
  { framework := "react", styling := "tailwind", typescript := false,
    accessibility := true, responsive := true, optimizeImages := true }

/-- C8: under the react framework the call never fails because of an
unresolvable declared component: it returns an artifact array, and
whenever at least one declared component resolves, the array carries
exactly one artifact per resolved declared component, in declaration
order, with the resolved node's id and the declared name sanitized —
unresolved declarations are skipped silently. -/
theorem claim_C8_unresolved_skipped (data : FigmaApiResponse)
    (opts : CodeGenerationOptions) (custom : CustomCodeInputs) (time : ℕ → ℕ)
    (h : opts.framework = "react") :
    ∃ comps, AdvancedCodeGenerator.generateComponents data opts custom time = .ok comps ∧
      (AdvancedCodeGenerator.resolvedEntries data.document data.components ≠ [] →
        comps.map GeneratedComponent.id =
          (AdvancedCodeGenerator.resolvedEntries data.document data.components).map
            (fun p => p.1.id) ∧
        comps.map GeneratedComponent.name =
          (AdvancedCodeGenerator.resolvedEntries data.document data.components).map
            (fun p => AdvancedCodeGenerator.sanitizeComponentName p.2)) := by
  unfold AdvancedCodeGenerator.generateComponents
  obtain ⟨comps, hc, hid, hname⟩ :=
    AdvancedCodeGenerator.generateFromComponentEntries_react opts custom
      data.document h data.components time 0
  rw [hc]
  by_cases he : comps.isEmpty = true
  · have hcomps : comps = [] := by
      cases comps with
      | nil => rfl
      | cons a l => simp at he
    obtain ⟨comps2, hc2⟩ :=
      AdvancedCodeGenerator.generateFromFrames_react opts custom h
        (AdvancedCodeGenerator.findMainFramesIn data.document) time 0
    refine ⟨comps2, by simp [he, hc2], ?_⟩
    intro hne
    exfalso
    apply hne
    have := hid
    rw [hcomps] at this
    exact (List.map_eq_nil_iff.mp this.symm)
  · exact ⟨comps, by simp [he], fun _ => ⟨hid, hname⟩⟩

theorem claim_C8_unresolved_skipped_witness :
    ∃ comps,
      AdvancedCodeGenerator.generateComponents exDoc8 exOptsReact noCustom
        (fun _ => 0) = .ok comps ∧
      (AdvancedCodeGenerator.resolvedEntries exDoc8.document exDoc8.components ≠ [] →
        comps.map GeneratedComponent.id =
          (AdvancedCodeGenerator.resolvedEntries exDoc8.document exDoc8.components).map
            (fun p => p.1.id) ∧
        comps.map GeneratedComponent.name =
          (AdvancedCodeGenerator.resolvedEntries exDoc8.document exDoc8.components).map
            (fun p => AdvancedCodeGenerator.sanitizeComponentName p.2)) :=
  claim_C8_unresolved_skipped exDoc8 exOptsReact noCustom (fun _ => 0) rfl
